import Mathlib

/-!
Shallow embedding of the WebSocket streaming subsystem of
`src/tools/websocket_tools.py` (classes `WebSocketManager` and
`WebSocketTools`).

Modelling conventions:
* Python `dict`s that are used as insertion-ordered key/value maps
  (`self.subscriptions`, `self.message_handlers`, parameter dicts) are
  modelled as association lists `List (String × _)` with Python's
  update-in-place / append-at-end semantics (`alistSet`, `alistErase`,
  `alistGet`).
* Callbacks are opaque handles (`Nat`); the router records which handles it
  would invoke instead of running them.
* Timestamps (`datetime.now().isoformat()`) are an abstract clock passed in
  as a `Nat` argument.
* The network transport (`self.ws.send`) is fault-injected through a script
  `sendOutcomes : List Bool` stored in the state: each send attempted while
  connected consumes the head of the script (`true` = delivered, `false` =
  the send raises); an empty script means every send succeeds.  A ghost
  field `sent_log` records the wire messages actually delivered so that
  "how many wire messages were sent" is observable.
* `json.loads` is external library code; `handle_message` therefore takes
  the parse outcome (`Except Unit InData`) as its input, mirroring the
  `try/except json.JSONDecodeError` structure of the source.
* Python exceptions are modelled by returning `Except WsErr _` together
  with the post-state (Python leaves the object's mutations in place when
  an exception propagates, so errors must carry the state).
-/

set_option autoImplicit false

namespace HLWS

/-- Error taxonomy of the subsystem (spec section 7 names; the source raises
plain `Exception`/`ValueError` objects with matching messages). -/
inductive WsErr where
  | notConnected
  | sendFailed
  | subscriptionError
  | notFoundError
  | validationError
deriving DecidableEq, Repr

/-- Wire message `{"method": ..., "subscription": {"type": ..., **params}}`
as built at `websocket_tools.py:168-176` and `213-219`. -/
structure WireMsg where
  method : String
  subType : String
  subParams : List (String × String)
deriving DecidableEq, Repr

/-- One entry of `self.subscriptions` (`websocket_tools.py:182-189`). -/
structure SubEntry where
  type : String
  params : List (String × String)
  message : WireMsg
  callback : Option Nat
  messages_received : Nat
  subscribed_at : Nat
deriving DecidableEq, Repr

/-- A parsed inbound message: its routing tag `data.get("channel", "")` plus
an opaque payload identifier. -/
structure InData where
  channel : String
  payload : Nat
deriving DecidableEq, Repr

/-- An element of `self.message_queue`: `{"timestamp": ..., "data": data}`
(`websocket_tools.py:258-261`). -/
structure QMsg where
  timestamp : Nat
  data : InData
deriving DecidableEq, Repr

/-- State of a `WebSocketManager` relevant to the registry, router, queue
and statistics (`websocket_tools.py:47-64`), plus the transport fault
script and the ghost log of delivered wire messages. -/
structure ManagerState where
  connected : Bool
  subscriptions : List (String × SubEntry)
  message_handlers : List (String × List Nat)
  stats_messages_received : Nat
  stats_messages_sent : Nat
  message_queue : List QMsg
  sent_log : List WireMsg
  sendOutcomes : List Bool
deriving DecidableEq, Repr

/-- Python `d[k]` lookup on an insertion-ordered dict. -/
def alistGet {α : Type} (k : String) : List (String × α) → Option α
  | [] => none
  | p :: rest => if p.1 = k then some p.2 else alistGet k rest

/-- Python `d[k] = v`: replace in place if the key is present, else append. -/
def alistSet {α : Type} (k : String) (v : α) : List (String × α) → List (String × α)
  | [] => [(k, v)]
  | p :: rest => if p.1 = k then (k, v) :: rest else p :: alistSet k v rest

/-- Python `del d[k]` (no-op when absent; the source always guards with a
membership test first). -/
def alistErase {α : Type} (k : String) : List (String × α) → List (String × α)
  | [] => []
  | p :: rest => if p.1 = k then rest else p :: alistErase k rest

/-- Number of entries stored under key `k`. -/
def keyCount {α : Type} (k : String) (l : List (String × α)) : Nat :=
  (l.filter (fun p => p.1 = k)).length

/-- Code-point comparison of character lists, as Python string `<=` uses. -/
def strListLeB : List Char → List Char → Bool
  | [], _ => true
  | _ :: _, [] => false
  | a :: as, b :: bs =>
    if a.toNat < b.toNat then true
    else if b.toNat < a.toNat then false
    else strListLeB as bs

/-- Python string comparison by code points. -/
def strLeB (a b : String) : Bool :=
  strListLeB a.toList b.toList

/-- Insert a pair into a key-sorted list. -/
def insertByKey (p : String × String) : List (String × String) → List (String × String)
  | [] => [p]
  | q :: rest => if strLeB p.1 q.1 then p :: q :: rest else q :: insertByKey p rest

/-- Sort parameter pairs by key: the normalization performed by
`json.dumps(params, sort_keys=True)` at `websocket_tools.py:179`. -/
def sortByKey : List (String × String) → List (String × String)
  | [] => []
  | p :: rest => insertByKey p (sortByKey rest)

/-- Canonical serialization of a parameter list. -/
def dumpParams (ps : List (String × String)) : String :=
  String.intercalate "," (ps.map (fun p => p.1 ++ ":" ++ p.2))

/-- Subscription identity
`f"{subscription_type}_{hash(json.dumps(params, sort_keys=True))}"`
(`websocket_tools.py:179`).  `hash` is a fixed deterministic function of the
canonical serialization; we use the serialization itself, which preserves
exactly the property the code relies on: the identity is a deterministic
function of the kind and the normalized parameter set. -/
def subIdOf (ty : String) (ps : List (String × String)) : String :=
  ty ++ "_" ++ dumpParams (sortByKey ps)

/-- The wire subscribe message built at `websocket_tools.py:168-176`. -/
def mkWireSub (ty : String) (ps : List (String × String)) : WireMsg :=
  ⟨"subscribe", ty, ps⟩

/-- `WebSocketManager._send_message` (`websocket_tools.py:136-148`): raises
`notConnected` when there is no live channel; otherwise attempts the
transport write, whose outcome is scripted by `sendOutcomes`.  The sent
counter is incremented only after a successful write, matching the source
order (`await self.ws.send` before `stats["messages_sent"] += 1`). -/
def send_message (st : ManagerState) (m : WireMsg) : Except WsErr Unit × ManagerState :=
  if st.connected then
    match st.sendOutcomes with
    | [] =>
      (.ok (), { st with
        stats_messages_sent := st.stats_messages_sent + 1,
        sent_log := st.sent_log ++ [m] })
    | b :: rest =>
      if b then
        (.ok (), { st with
          sendOutcomes := rest,
          stats_messages_sent := st.stats_messages_sent + 1,
          sent_log := st.sent_log ++ [m] })
      else
        (.error .sendFailed, { st with sendOutcomes := rest })
  else
    (.error .notConnected, st)

/-- The callback-registration block of `subscribe`
(`websocket_tools.py:191-195`): ensure a handler list exists for the id and
append the callback to it. -/
def addHandler (hs : List (String × List Nat)) (sid : String) (c : Nat) :
    List (String × List Nat) :=
  alistSet sid (((alistGet sid hs).getD []) ++ [c]) hs

/-- `WebSocketManager.subscribe` (`websocket_tools.py:150-204`): build the
wire message and identity, store the entry (overwriting any previous entry
of the same identity), append the callback to the handler list, then send;
on a send failure delete the stored entry (but nothing else) and fail with
`subscriptionError`. -/
def subscribe (st : ManagerState) (ty : String) (ps : List (String × String))
    (cb : Option Nat) (now : Nat) : Except WsErr String × ManagerState :=
  let message := mkWireSub ty ps
  let sub_id := subIdOf ty ps
  let entry : SubEntry := ⟨ty, ps, message, cb, 0, now⟩
  let st1 := { st with subscriptions := alistSet sub_id entry st.subscriptions }
  let st2 :=
    match cb with
    | none => st1
    | some c => { st1 with message_handlers := addHandler st1.message_handlers sub_id c }
  match send_message st2 message with
  | (.ok _, st3) => (.ok sub_id, st3)
  | (.error _, st3) =>
    (.error .subscriptionError, { st3 with subscriptions := alistErase sub_id st3.subscriptions })

/-- `WebSocketManager.unsubscribe` (`websocket_tools.py:206-229`): unknown
id fails with `notFoundError` and changes nothing; otherwise the unsubscribe
wire message is sent, and only on a successful send are the entry and its
handlers removed — a send failure re-raises and keeps the entry. -/
def unsubscribe (st : ManagerState) (sub_id : String) : Except WsErr Unit × ManagerState :=
  match alistGet sub_id st.subscriptions with
  | none => (.error .notFoundError, st)
  | some sd =>
    let message : WireMsg := ⟨"unsubscribe", sd.type, sd.params⟩
    match send_message st message with
    | (.ok _, st1) =>
      (.ok (), { st1 with
        subscriptions := alistErase sub_id st1.subscriptions,
        message_handlers := alistErase sub_id st1.message_handlers })
    | (.error e, st1) => (.error e, st1)

/-- Python `channel.split("@")[0]`: the prefix before the first `@`. -/
def channelTag (s : String) : String :=
  (s.toList.takeWhile (fun c => c ≠ '@')).asString

/-- Python `str.lower()`, for the ASCII channel/kind strings this protocol
uses (defined structurally so it evaluates). -/
def pyLower (s : String) : String :=
  String.mk (s.data.map Char.toLower)

/-- `WebSocketManager._message_matches_subscription`
(`websocket_tools.py:268-279`): case-insensitive comparison of the
channel tag with the entry's kind; the parameters are not consulted. -/
def message_matches_subscription (data : InData) (e : SubEntry) : Bool :=
  pyLower (channelTag data.channel) = pyLower e.type

/-- The routing loop of `_handle_message` (`websocket_tools.py:241-255`):
walk the registry in order; each matching entry has its counter incremented
and contributes its handler list (in registration order) to the invocation
log. -/
def route (handlers : List (String × List Nat)) (data : InData) :
    List (String × SubEntry) → List (String × SubEntry) × List Nat
  | [] => ([], [])
  | (sid, sd) :: rest =>
    let r := route handlers data rest
    if message_matches_subscription data sd then
      ((sid, { sd with messages_received := sd.messages_received + 1 }) :: r.1,
       ((alistGet sid handlers).getD []) ++ r.2)
    else
      ((sid, sd) :: r.1, r.2)

/-- `WebSocketManager._handle_message` (`websocket_tools.py:231-266`),
taking the outcome of `json.loads` as input.  On a parse failure the
exception is caught and logged: nothing changes and nothing is invoked.
On success the global received counter is incremented, the message is
routed, and it is enqueued exactly once regardless of how many entries
matched.  The second component lists the callback handles invoked. -/
def handle_message (st : ManagerState) (raw : Except Unit InData) (now : Nat) :
    ManagerState × List Nat :=
  match raw with
  | .error _ => (st, [])
  | .ok data =>
    let st1 := { st with stats_messages_received := st.stats_messages_received + 1 }
    let r := route st1.message_handlers data st1.subscriptions
    ({ st1 with
        subscriptions := r.1,
        message_queue := st1.message_queue ++ [⟨now, data⟩] }, r.2)

/-- Loop body of `_resubscribe_all` (`websocket_tools.py:123-134`): re-send
each stored wire message, logging (ignoring) per-entry failures. -/
def resubscribe_loop : ManagerState → List (String × SubEntry) → ManagerState
  | st, [] => st
  | st, (_, sd) :: rest => resubscribe_loop (send_message st sd.message).2 rest

/-- `WebSocketManager._resubscribe_all`: early return on an empty registry,
else replay every stored wire message. -/
def resubscribe_all (st : ManagerState) : ManagerState :=
  if st.subscriptions = [] then st else resubscribe_loop st st.subscriptions

/-- The valid data types of `subscribe_market_data`
(`websocket_tools.py:433`). -/
def valid_market_types : List String :=
  ["l2Book", "trades", "candle"]

/-- Parameter dict built per data type (`websocket_tools.py:441-447`):
`{"coin": coin}`, with `interval = "1m"` added for candle subscriptions. -/
def market_params (coin dt : String) : List (String × String) :=
  if dt = "candle" then [("coin", coin), ("interval", "1m")] else [("coin", coin)]

/-- The rollback block of `subscribe_market_data`
(`websocket_tools.py:459-464`): best-effort unsubscribe of each
already-created id, swallowing any error. -/
def rollback : ManagerState → List String → ManagerState
  | st, [] => st
  | st, sid :: rest => rollback (unsubscribe st sid).2 rest

/-- The per-type subscription loop of `subscribe_market_data`
(`websocket_tools.py:440-465`): subscribe to each type in order; on a
failure, roll back the accumulated ids and re-raise the error. -/
def smd_loop (coin : String) (cb : Option Nat) (now : Nat) :
    ManagerState → List String → List String → Except WsErr (List String) × ManagerState
  | st, [], acc => (.ok acc, st)
  | st, dt :: rest, acc =>
    match subscribe st dt (market_params coin dt) cb now with
    | (.ok sid, st1) => smd_loop coin cb now st1 rest (acc ++ [sid])
    | (.error e, st1) => (.error e, rollback st1 acc)

/-- `WebSocketTools.subscribe_market_data` (`websocket_tools.py:412-467`):
validate every requested data type up front (failing with
`validationError` before any registration), then register one
subscription per type with rollback-on-failure. -/
def subscribe_market_data (st : ManagerState) (coin : String) (data_types : List String)
    (cb : Option Nat) (now : Nat) : Except WsErr (List String) × ManagerState :=
  if data_types.all (fun dt => valid_market_types.contains dt) then
    smd_loop coin cb now st data_types []
  else
    (.error .validationError, st)

/-- One item of the `get_active_subscriptions` result
(`websocket_tools.py:542-549`). -/
structure SubscriptionInfo where
  subscription_id : String
  subscription_type : String
  params : List (String × String)
  connected : Bool
  messages_received : Nat
  subscribed_at : Nat
deriving DecidableEq, Repr

/-- `WebSocketTools.get_active_subscriptions` (`websocket_tools.py:526-551`):
a read-only projection of the registry; the state is returned unchanged. -/
def get_active_subscriptions (st : ManagerState) : List SubscriptionInfo × ManagerState :=
  (st.subscriptions.map (fun p =>
    ⟨p.1, p.2.type, p.2.params, st.connected, p.2.messages_received, p.2.subscribed_at⟩), st)

/-- `WebSocketTools.get_next_message` (`websocket_tools.py:587-604`):
poll the FIFO queue; an empty queue models the timeout expiring with no
message, which yields `none` rather than an error. -/
def get_next_message (st : ManagerState) : Option QMsg × ManagerState :=
  match st.message_queue with
  | [] => (none, st)
  | m :: rest => (some m, { st with message_queue := rest })

/-- Result of `reconnect`: either exhaustion of the attempt budget or a
fuel underrun of the embedding (shown unreachable by the theorems). -/
inductive ReconnErr where
  | exhausted
  | outOfFuel
deriving DecidableEq, Repr

/-- Connection-lifecycle portion of the `WebSocketManager` state used by
`reconnect` (`websocket_tools.py:50-55`), with a ghost counter of `connect`
invocations. -/
structure ConnState where
  connected : Bool
  reconnect_attempts : Nat
  max_reconnect_attempts : Nat
  connect_calls : Nat
  reconnections : Nat
deriving DecidableEq, Repr

/-- Outcome of one `reconnect` call. -/
structure ReconnResult where
  outcome : Except ReconnErr Unit
  state : ConnState
  delays : List ℚ
deriving Repr

/-- `WebSocketManager.reconnect` (`websocket_tools.py:104-121`), with the
self-recursion made fuel-indexed.  Each level: if the attempt budget is
spent, raise exhaustion; otherwise increment the attempt counter, wait
`base * 2 ^ (attempt - 1)`, and try `connect()` — whose success is scripted
by `connectOk`, indexed by the ghost call counter.  A successful connect
resets the attempt counter and increments the reconnection statistic
(`websocket_tools.py:78-79,118`); a failure marks the state disconnected
and recurses. -/
def reconnectFuel (connectOk : Nat → Bool) (base : ℚ) :
    Nat → ConnState → ReconnResult
  | 0, st => ⟨.error .outOfFuel, st, []⟩
  | fuel + 1, st =>
    if st.reconnect_attempts ≥ st.max_reconnect_attempts then
      ⟨.error .exhausted, st, []⟩
    else
      let a := st.reconnect_attempts + 1
      let delay := base * 2 ^ (a - 1)
      let stTry : ConnState :=
        { st with reconnect_attempts := a, connect_calls := st.connect_calls + 1 }
      if connectOk st.connect_calls then
        ⟨.ok (), { stTry with
            connected := true,
            reconnect_attempts := 0,
            reconnections := st.reconnections + 1 }, [delay]⟩
      else
        let r := reconnectFuel connectOk base fuel { stTry with connected := false }
        ⟨r.outcome, r.state, delay :: r.delays⟩

/-- `reconnect` with enough fuel for its recursion: from attempt counter
`a` the source recursion performs at most `max - a` failing levels plus the
final exhaustion check. -/
def reconnect (connectOk : Nat → Bool) (base : ℚ) (st : ConnState) : ReconnResult :=
  reconnectFuel connectOk base (st.max_reconnect_attempts - st.reconnect_attempts + 1) st

/-- A freshly connected manager with an empty registry and a fault-free
transport. -/
def freshMgr : ManagerState :=
  ⟨true, [], [], 0, 0, [], [], []⟩

/-- A manager holding one trades/BTC subscription, obtained by a successful
`subscribe` on `freshMgr`. -/
def demoSub : ManagerState :=
  (subscribe freshMgr "trades" [("coin", "BTC")] none 0).2

/-- The identity of the trades/BTC subscription. -/
def demoSid : String :=
  subIdOf "trades" [("coin", "BTC")]

/-- A connected manager whose transport will deliver the first send and then
fail the next two. -/
def rollbackFailMgr : ManagerState :=
  ⟨true, [], [], 0, 0, [], [], [true, false, false]⟩

/-- A connected manager whose transport will deliver the first send, fail
the second, and deliver everything after that. -/
def rollbackOkMgr : ManagerState :=
  ⟨true, [], [], 0, 0, [], [], [true, false]⟩

/-- A connected manager with an empty registry whose transport fails the
first send. -/
def sendFailMgr : ManagerState :=
  ⟨true, [], [], 0, 0, [], [], [false]⟩

/-- The trades/BTC entry stored by `demoSub`. -/
def demoEntry : SubEntry :=
  ⟨"trades", [("coin", "BTC")], mkWireSub "trades" [("coin", "BTC")], none, 0, 0⟩

theorem alistGet_alistSet_self {α : Type} (k : String) (v : α) (l : List (String × α)) :
    alistGet k (alistSet k v l) = some v := by
  induction l with
  | nil => simp [alistSet, alistGet]
  | cons p rest ih =>
    by_cases h : p.1 = k
    · simp [alistSet, alistGet, h]
    · simp [alistSet, alistGet, h, ih]

theorem alistGet_alistErase_ne {α : Type} (k k' : String) (l : List (String × α))
    (h : k ≠ k') : alistGet k (alistErase k' l) = alistGet k l := by
  induction l with
  | nil => simp [alistErase, alistGet]
  | cons p rest ih =>
    by_cases hp : p.1 = k'
    · have hk : ¬ p.1 = k := by rw [hp]; intro hc; exact h hc.symm
      simp only [alistErase, if_pos hp, alistGet, if_neg hk]
    · by_cases hk : p.1 = k
      · simp only [alistErase, if_neg hp, alistGet, if_pos hk]
      · simp only [alistErase, if_neg hp, alistGet, if_neg hk]
        exact ih

theorem keyCount_cons {α : Type} (k : String) (p : String × α) (l : List (String × α)) :
    keyCount k (p :: l) = (if p.1 = k then 1 else 0) + keyCount k l := by
  by_cases h : p.1 = k <;> simp [keyCount, List.filter_cons, h, Nat.add_comm]

theorem keyCount_alistSet_of_le_one {α : Type} (k : String) (v : α) (l : List (String × α))
    (h : keyCount k l ≤ 1) : keyCount k (alistSet k v l) = 1 := by
  induction l with
  | nil => simp [alistSet, keyCount]
  | cons p rest ih =>
    by_cases hp : p.1 = k
    · rw [keyCount_cons, if_pos hp] at h
      have hrest : keyCount k rest = 0 := by omega
      simp [alistSet, hp, keyCount_cons, hrest]
    · rw [keyCount_cons, if_neg hp] at h
      simp only [alistSet, if_neg hp, keyCount_cons, if_neg hp]
      rw [ih (by omega)]

theorem send_message_subscriptions (st : ManagerState) (m : WireMsg) :
    (send_message st m).2.subscriptions = st.subscriptions := by
  unfold send_message
  cases st.connected
  · simp
  · cases st.sendOutcomes with
    | nil => simp
    | cons b rest => cases b <;> simp

theorem resubscribe_loop_subscriptions (l : List (String × SubEntry)) :
    ∀ st : ManagerState, (resubscribe_loop st l).subscriptions = st.subscriptions := by
  induction l with
  | nil => intro st; rfl
  | cons p rest ih =>
    intro st
    obtain ⟨sid, sd⟩ := p
    rw [resubscribe_loop, ih, send_message_subscriptions]

theorem resubscribe_all_subscriptions (st : ManagerState) :
    (resubscribe_all st).subscriptions = st.subscriptions := by
  unfold resubscribe_all
  by_cases h : st.subscriptions = []
  · simp [h]
  · simp [h, resubscribe_loop_subscriptions]

theorem route_spec (handlers : List (String × List Nat)) (data : InData)
    (l : List (String × SubEntry)) :
    route handlers data l =
      (l.map (fun p => if message_matches_subscription data p.2 then
          (p.1, { p.2 with messages_received := p.2.messages_received + 1 }) else p),
       (l.filter (fun p => message_matches_subscription data p.2)).flatMap
         (fun p => (alistGet p.1 handlers).getD [])) := by
  induction l with
  | nil => simp [route]
  | cons p rest ih =>
    obtain ⟨sid, sd⟩ := p
    by_cases h : message_matches_subscription data sd
    · simp [route, h, ih, List.filter_cons]
    · simp [route, h, ih, List.filter_cons]

theorem alistGet_route (handlers : List (String × List Nat)) (data : InData)
    (l : List (String × SubEntry)) (sid : String) :
    alistGet sid (route handlers data l).1 =
      (alistGet sid l).map (fun e => if message_matches_subscription data e
        then { e with messages_received := e.messages_received + 1 } else e) := by
  induction l with
  | nil => simp [route, alistGet]
  | cons p rest ih =>
    obtain ⟨k, sd⟩ := p
    by_cases hm : message_matches_subscription data sd <;>
      by_cases hk : k = sid <;>
      simp [route, alistGet, hm, hk, ih]

theorem alistGet_map_snd {α β : Type} (k : String) (f : α → β) (l : List (String × α)) :
    alistGet k (l.map (fun p => (p.1, f p.2))) = (alistGet k l).map f := by
  induction l with
  | nil => simp [alistGet]
  | cons p rest ih =>
    by_cases h : p.1 = k
    · simp [alistGet, h]
    · simp [alistGet, h, ih]

theorem subscribe_ok (st : ManagerState) (ty : String) (ps : List (String × String))
    (cb : Option Nat) (now : Nat) (hconn : st.connected = true) (hout : st.sendOutcomes = []) :
    subscribe st ty ps cb now =
      (.ok (subIdOf ty ps),
       { st with
          subscriptions :=
            alistSet (subIdOf ty ps) ⟨ty, ps, mkWireSub ty ps, cb, 0, now⟩ st.subscriptions,
          message_handlers :=
            match cb with
            | none => st.message_handlers
            | some c => addHandler st.message_handlers (subIdOf ty ps) c,
          stats_messages_sent := st.stats_messages_sent + 1,
          sent_log := st.sent_log ++ [mkWireSub ty ps] }) := by
  cases cb <;> simp [subscribe, send_message, hconn, hout]

theorem reconnectFuel_all_fail (connectOk : Nat → Bool) (base : ℚ)
    (hfail : ∀ n, connectOk n = false) :
    ∀ (d : Nat) (st : ConnState), st.max_reconnect_attempts = st.reconnect_attempts + d →
    reconnectFuel connectOk base (d + 1) st =
      ⟨.error .exhausted,
       { st with
          connected := if d = 0 then st.connected else false,
          reconnect_attempts := st.reconnect_attempts + d,
          connect_calls := st.connect_calls + d },
       (List.range d).map (fun k => base * 2 ^ (st.reconnect_attempts + k))⟩ := by
  intro d
  induction d with
  | zero =>
    intro st hmax
    have hge : st.reconnect_attempts ≥ st.max_reconnect_attempts := by omega
    simp [reconnectFuel, hge]
  | succ d ih =>
    intro st hmax
    have hlt : ¬ st.reconnect_attempts ≥ st.max_reconnect_attempts := by omega
    rw [reconnectFuel]
    simp only [hlt, if_false, hfail st.connect_calls, Bool.false_eq_true]
    have h2 :
        ({ st with
            reconnect_attempts := st.reconnect_attempts + 1,
            connect_calls := st.connect_calls + 1,
            connected := false } : ConnState).max_reconnect_attempts =
          ({ st with
              reconnect_attempts := st.reconnect_attempts + 1,
              connect_calls := st.connect_calls + 1,
              connected := false } : ConnState).reconnect_attempts + d := by
      simp; omega
    rw [ih _ h2]
    simp only [ReconnResult.mk.injEq, ConnState.mk.injEq]
    refine ⟨trivial, ⟨by simp, by omega, trivial, by omega, trivial⟩, ?_⟩
    rw [List.range_succ_eq_map, List.map_cons, List.map_map]
    simp only [List.cons.injEq]
    refine ⟨rfl, ?_⟩
    apply List.map_congr_left
    intro a _
    simp only [Function.comp_apply]
    have hx : st.reconnect_attempts + 1 + a = st.reconnect_attempts + (a + 1) := by omega
    rw [hx]

/-- C1 counterexample: on a fresh connected manager, two `subscribe` calls
with identical parameters send TWO wire subscribe messages (the claim says
only one is sent for the pair; the source has no already-present check and
re-sends unconditionally, `websocket_tools.py:150-204`). -/
theorem subscribe_resends_counterexample :
    (subscribe (subscribe freshMgr "trades" [("coin", "BTC")] none 0).2
        "trades" [("coin", "BTC")] none 1).2.sent_log =
      [mkWireSub "trades" [("coin", "BTC")], mkWireSub "trades" [("coin", "BTC")]] ∧
    (subscribe (subscribe freshMgr "trades" [("coin", "BTC")] none 0).2
        "trades" [("coin", "BTC")] none 1).2.stats_messages_sent = 2 := by
  exact ⟨rfl, rfl⟩

/-- C1 amended: two `subscribe` calls with identically-normalized parameters
yield the same identity and leave exactly one registry entry for it, but a
wire subscribe message is sent for EACH call (two sends for the pair), and
the second call replaces the stored entry (fresh counter, its own callback)
rather than merely attaching a callback. -/
theorem subscribe_same_identity_amended (st : ManagerState) (ty : String)
    (ps qs : List (String × String)) (cb1 cb2 : Option Nat) (t1 t2 : Nat)
    (hnorm : sortByKey ps = sortByKey qs)
    (hconn : st.connected = true) (hout : st.sendOutcomes = [])
    (hcnt : keyCount (subIdOf ty ps) st.subscriptions ≤ 1) :
    (subscribe st ty ps cb1 t1).1 = .ok (subIdOf ty ps) ∧
    (subscribe (subscribe st ty ps cb1 t1).2 ty qs cb2 t2).1 = .ok (subIdOf ty ps) ∧
    keyCount (subIdOf ty ps)
        (subscribe (subscribe st ty ps cb1 t1).2 ty qs cb2 t2).2.subscriptions = 1 ∧
    alistGet (subIdOf ty ps)
        (subscribe (subscribe st ty ps cb1 t1).2 ty qs cb2 t2).2.subscriptions =
      some ⟨ty, qs, mkWireSub ty qs, cb2, 0, t2⟩ ∧
    (subscribe (subscribe st ty ps cb1 t1).2 ty qs cb2 t2).2.stats_messages_sent =
      st.stats_messages_sent + 2 ∧
    (subscribe (subscribe st ty ps cb1 t1).2 ty qs cb2 t2).2.sent_log =
      st.sent_log ++ [mkWireSub ty ps, mkWireSub ty qs] := by
  have hid : subIdOf ty qs = subIdOf ty ps := by
    unfold subIdOf
    rw [hnorm]
  have h1 := subscribe_ok st ty ps cb1 t1 hconn hout
  have hA1 : (subscribe st ty ps cb1 t1).2.connected = true := by
    rw [h1]
    exact hconn
  have hA2 : (subscribe st ty ps cb1 t1).2.sendOutcomes = [] := by
    rw [h1]
    exact hout
  have h2 := subscribe_ok ((subscribe st ty ps cb1 t1).2) ty qs cb2 t2 hA1 hA2
  rw [hid] at h2
  refine ⟨by rw [h1], by rw [h2], ?_, ?_, ?_, ?_⟩
  · rw [h2]
    apply keyCount_alistSet_of_le_one
    rw [h1]
    exact (keyCount_alistSet_of_le_one (subIdOf ty ps)
      (⟨ty, ps, mkWireSub ty ps, cb1, 0, t1⟩ : SubEntry) st.subscriptions hcnt).le
  · rw [h2]
    exact alistGet_alistSet_self (subIdOf ty ps)
      (⟨ty, qs, mkWireSub ty qs, cb2, 0, t2⟩ : SubEntry)
      ((subscribe st ty ps cb1 t1).2.subscriptions)
  · rw [h2, h1]
  · rw [h2, h1]
    show (st.sent_log ++ [mkWireSub ty ps]) ++ [mkWireSub ty qs] =
      st.sent_log ++ [mkWireSub ty ps, mkWireSub ty qs]
    rw [List.append_assoc]
    rfl

/-- C1 witness: the amended theorem applied to a fresh manager and the
trades/BTC parameters. -/
theorem subscribe_same_identity_amended_witness :
    (subscribe (subscribe freshMgr "trades" [("coin", "BTC")] none 0).2
        "trades" [("coin", "BTC")] (some 3) 1).2.stats_messages_sent = 2 ∧
    keyCount (subIdOf "trades" [("coin", "BTC")])
        (subscribe (subscribe freshMgr "trades" [("coin", "BTC")] none 0).2
          "trades" [("coin", "BTC")] (some 3) 1).2.subscriptions = 1 := by
  have h := subscribe_same_identity_amended freshMgr "trades" [("coin", "BTC")]
    [("coin", "BTC")] none (some 3) 0 1 rfl rfl rfl (by decide)
  exact ⟨h.2.2.2.2.1, h.2.2.1⟩

/-- C2: when the wire send of a `subscribe` call fails, the code deletes the
registry entry but leaves the callback it just appended in
`message_handlers` — a ghost registration from the failed call
(`websocket_tools.py:191-204`: the `except` block deletes
`self.subscriptions[sub_id]` only). -/
theorem subscribe_send_failure_ghost_handler :
    (subscribe sendFailMgr "trades" [("coin", "BTC")] (some 7) 0).1 =
      .error .subscriptionError ∧
    alistGet (subIdOf "trades" [("coin", "BTC")])
      (subscribe sendFailMgr "trades" [("coin", "BTC")] (some 7) 0).2.subscriptions = none ∧
    (subscribe sendFailMgr "trades" [("coin", "BTC")] (some 7) 0).2.message_handlers =
      [(subIdOf "trades" [("coin", "BTC")], [7])] := by
  exact ⟨rfl, rfl, rfl⟩

/-- C3 counterexample: `unsubscribe` of a KNOWN id whose unsubscribe send
fails raises and does NOT remove the entry — the claim says the entry is
removed regardless of send success (`websocket_tools.py:221-229`: the
deletions sit after `_send_message` inside the `try`). -/
theorem unsubscribe_send_failure_counterexample :
    (unsubscribe { demoSub with connected := false } demoSid).1 = .error .notConnected ∧
    alistGet demoSid
        (unsubscribe { demoSub with connected := false } demoSid).2.subscriptions =
      some demoEntry := by
  exact ⟨rfl, rfl⟩

/-- C3 amended: unknown id fails with `notFoundError` and changes nothing;
for a known id an unsubscribe wire message is sent and the entry and its
callbacks are removed only when the send succeeds — a send failure
propagates the error and leaves the entry and callbacks registered. -/
theorem unsubscribe_amended (st : ManagerState) (sid : String) :
    (alistGet sid st.subscriptions = none →
      unsubscribe st sid = (.error .notFoundError, st)) ∧
    (∀ sd : SubEntry, alistGet sid st.subscriptions = some sd → st.connected = true →
      st.sendOutcomes = [] →
      unsubscribe st sid =
        (.ok (), { st with
            subscriptions := alistErase sid st.subscriptions,
            message_handlers := alistErase sid st.message_handlers,
            stats_messages_sent := st.stats_messages_sent + 1,
            sent_log := st.sent_log ++ [⟨"unsubscribe", sd.type, sd.params⟩] })) ∧
    (∀ sd : SubEntry, alistGet sid st.subscriptions = some sd → st.connected = false →
      unsubscribe st sid = (.error .notConnected, st)) := by
  refine ⟨?_, ?_, ?_⟩
  · intro h
    simp [unsubscribe, h]
  · intro sd h hconn hout
    simp [unsubscribe, h, send_message, hconn, hout]
  · intro sd h hconn
    simp [unsubscribe, h, send_message, hconn]

/-- C3 witness: the amended theorem applied to an unknown id on a fresh
manager and to the disconnected trades/BTC manager. -/
theorem unsubscribe_amended_witness :
    unsubscribe freshMgr "missing" = (.error .notFoundError, freshMgr) ∧
    unsubscribe { demoSub with connected := false } demoSid =
      (.error .notConnected, { demoSub with connected := false }) := by
  constructor
  · exact (unsubscribe_amended freshMgr "missing").1 rfl
  · exact (unsubscribe_amended { demoSub with connected := false } demoSid).2.2
      demoEntry rfl rfl

/-- C4 counterexample: with l2Book succeeding, trades failing, and the
rollback unsubscribe's send also failing, `subscribe_market_data` surfaces
the error while the l2Book registration from the same call SURVIVES —
not all-or-nothing (`websocket_tools.py:459-464` swallows the rollback
failure, and `unsubscribe` does not remove the entry when its send fails). -/
theorem subscribe_market_data_partial_rollback_counterexample :
    (subscribe_market_data rollbackFailMgr "BTC" ["l2Book", "trades"] none 0).1 =
      .error .subscriptionError ∧
    alistGet (subIdOf "l2Book" [("coin", "BTC")])
        (subscribe_market_data rollbackFailMgr "BTC"
          ["l2Book", "trades"] none 0).2.subscriptions =
      some ⟨"l2Book", [("coin", "BTC")], mkWireSub "l2Book" [("coin", "BTC")], none, 0, 0⟩ := by
  exact ⟨rfl, rfl⟩

/-- C4 amended: an invalid data type yields a single `validationError` with
the state untouched (zero registrations from the call); when an individual
registration fails after earlier successes, rollback of the earlier ones is
attempted best-effort: an already-created registration is removed when its
unsubscribe send succeeds but survives when that send fails, so
all-or-nothing is not guaranteed. -/
theorem subscribe_market_data_amended :
    (∀ (st : ManagerState) (coin : String) (dts : List String) (cb : Option Nat) (now : Nat),
      dts.all (fun dt => valid_market_types.contains dt) = false →
      subscribe_market_data st coin dts cb now = (.error .validationError, st)) ∧
    ((subscribe_market_data rollbackOkMgr "BTC" ["l2Book", "trades"] none 0).1 =
        .error .subscriptionError ∧
      (subscribe_market_data rollbackOkMgr "BTC"
        ["l2Book", "trades"] none 0).2.subscriptions = []) ∧
    ((subscribe_market_data rollbackFailMgr "BTC" ["l2Book", "trades"] none 0).1 =
        .error .subscriptionError ∧
      keyCount (subIdOf "l2Book" [("coin", "BTC")])
        (subscribe_market_data rollbackFailMgr "BTC"
          ["l2Book", "trades"] none 0).2.subscriptions = 1) := by
  refine ⟨?_, ⟨rfl, rfl⟩, ⟨rfl, rfl⟩⟩
  intro st coin dts cb now h
  unfold subscribe_market_data
  rw [h]
  simp

/-- C4 witness: the amended theorem's validation part applied to a call
containing the unknown type `bogus`. -/
theorem subscribe_market_data_amended_witness :
    subscribe_market_data freshMgr "BTC" ["l2Book", "trades", "bogus"] none 0 =
      (.error .validationError, freshMgr) :=
  subscribe_market_data_amended.1 freshMgr "BTC" ["l2Book", "trades", "bogus"] none 0 rfl

/-- C5 counterexample: after one matched message the trades/BTC counter is 1,
but re-subscribing the same identity overwrites the entry and RESETS the
counter to 0 while the identity remains registered — the claim says no
operation ever resets it (`websocket_tools.py:182-189` unconditionally
stores a fresh entry with `messages_received: 0`). -/
theorem counter_reset_counterexample :
    (alistGet demoSid (handle_message demoSub (.ok ⟨"trades", 0⟩) 1).1.subscriptions).map
        (fun e => e.messages_received) = some 1 ∧
    (alistGet demoSid
        (subscribe (handle_message demoSub (.ok ⟨"trades", 0⟩) 1).1
          "trades" [("coin", "BTC")] none 2).2.subscriptions).map
        (fun e => e.messages_received) = some 0 := by
  constructor <;> decide

/-- C5 amended: a registered entry's counter is incremented by exactly one
per inbound message whose channel tag matches its kind and is unchanged by
non-matching messages, unparseable messages, resubscribe-all, and
deregistration of other identities; however re-registering the same
identity overwrites the entry, resetting its counter to zero. -/
theorem counter_monotonicity_amended :
    (∀ (st : ManagerState) (data : InData) (now : Nat) (sid : String) (e : SubEntry),
      alistGet sid st.subscriptions = some e →
      alistGet sid (handle_message st (.ok data) now).1.subscriptions =
        some (if message_matches_subscription data e
          then { e with messages_received := e.messages_received + 1 } else e)) ∧
    (∀ (st : ManagerState) (err : Unit) (now : Nat),
      (handle_message st (.error err) now).1 = st) ∧
    (∀ st : ManagerState, (resubscribe_all st).subscriptions = st.subscriptions) ∧
    (∀ (st : ManagerState) (sid other : String), sid ≠ other →
      alistGet sid (unsubscribe st other).2.subscriptions = alistGet sid st.subscriptions) ∧
    (∀ (st : ManagerState) (ty : String) (ps : List (String × String)) (cb : Option Nat)
      (now : Nat), st.connected = true → st.sendOutcomes = [] →
      alistGet (subIdOf ty ps) (subscribe st ty ps cb now).2.subscriptions =
        some ⟨ty, ps, mkWireSub ty ps, cb, 0, now⟩) := by
  refine ⟨?_, ?_, resubscribe_all_subscriptions, ?_, ?_⟩
  · intro st data now sid e h
    show alistGet sid (route st.message_handlers data st.subscriptions).1 = _
    rw [alistGet_route, h]
    rfl
  · intro st err now
    rfl
  · intro st sid other hne
    unfold unsubscribe
    cases halist : alistGet other st.subscriptions with
    | none => simp [halist]
    | some sd =>
      have hsm := send_message_subscriptions st ⟨"unsubscribe", sd.type, sd.params⟩
      cases hs : send_message st ⟨"unsubscribe", sd.type, sd.params⟩ with
      | mk fst snd =>
        rw [hs] at hsm
        simp only [Prod.snd] at hsm
        cases fst with
        | ok u => simp [halist, hs, alistGet_alistErase_ne _ _ _ hne, hsm]
        | error e => simp [halist, hs, hsm]
  · intro st ty ps cb now hconn hout
    rw [subscribe_ok st ty ps cb now hconn hout]
    exact alistGet_alistSet_self (subIdOf ty ps)
      (⟨ty, ps, mkWireSub ty ps, cb, 0, now⟩ : SubEntry) st.subscriptions

/-- C5 witness: the amended theorem applied to the trades/BTC manager, a
matching message, and a resubscribe-all. -/
theorem counter_monotonicity_amended_witness :
    alistGet demoSid (handle_message demoSub (.ok ⟨"trades", 0⟩) 1).1.subscriptions =
      some { demoEntry with messages_received := 1 } ∧
    (resubscribe_all demoSub).subscriptions = demoSub.subscriptions := by
  constructor
  · have h := counter_monotonicity_amended.1 demoSub ⟨"trades", 0⟩ 1 demoSid demoEntry rfl
    rw [h]
    rfl
  · exact counter_monotonicity_amended.2.2.1 demoSub

theorem reconnect_exhausted_of_ge (connectOk : Nat → Bool) (base : ℚ) (st : ConnState)
    (h : st.reconnect_attempts ≥ st.max_reconnect_attempts) :
    reconnect connectOk base st = ⟨.error .exhausted, st, []⟩ := by
  unfold reconnect
  have hf : st.max_reconnect_attempts - st.reconnect_attempts + 1 = 1 := by omega
  rw [hf]
  simp [reconnectFuel, h]

/-- C6: with every `connect` failing, `reconnect` performs exactly
`max_reconnect_attempts` connect calls, waiting `base * 2 ^ (n - 1)` before
the n-th attempt (the delays list, 0-indexed), then fails exhausted; and a
further `reconnect` call on the resulting state performs no connect attempt
and no wait at all (`websocket_tools.py:104-121`). -/
theorem reconnect_backoff_exhaustion (connectOk : Nat → Bool) (base : ℚ) (st : ConnState)
    (hfail : ∀ n, connectOk n = false) (hstart : st.reconnect_attempts = 0) :
    (reconnect connectOk base st).outcome = .error .exhausted ∧
    (reconnect connectOk base st).state.connect_calls =
      st.connect_calls + st.max_reconnect_attempts ∧
    (reconnect connectOk base st).state.reconnect_attempts = st.max_reconnect_attempts ∧
    (reconnect connectOk base st).delays =
      (List.range st.max_reconnect_attempts).map (fun k => base * 2 ^ k) ∧
    reconnect connectOk base (reconnect connectOk base st).state =
      ⟨.error .exhausted, (reconnect connectOk base st).state, []⟩ := by
  have hmax : st.max_reconnect_attempts = st.reconnect_attempts + st.max_reconnect_attempts := by
    omega
  have hkey := reconnectFuel_all_fail connectOk base hfail st.max_reconnect_attempts st hmax
  have hfuel : st.max_reconnect_attempts - st.reconnect_attempts + 1 =
      st.max_reconnect_attempts + 1 := by omega
  have hrec : reconnect connectOk base st =
      reconnectFuel connectOk base (st.max_reconnect_attempts + 1) st := by
    unfold reconnect
    rw [hfuel]
  rw [hrec, hkey]
  refine ⟨rfl, rfl, by simp [hstart], ?_, ?_⟩
  · apply List.map_congr_left
    intro a _
    rw [hstart, Nat.zero_add]
  · exact reconnect_exhausted_of_ge connectOk base _ (Nat.le_add_left _ _)

/-- C6 witness: the theorem applied to the source's constants
(`max_reconnect_attempts = 5`, `base_reconnect_delay = 1.0`) with an
always-failing connect. -/
theorem reconnect_backoff_exhaustion_witness :
    (reconnect (fun _ => false) 1 ⟨true, 0, 5, 0, 0⟩).outcome = .error .exhausted ∧
    (reconnect (fun _ => false) 1 ⟨true, 0, 5, 0, 0⟩).state.connect_calls = 5 ∧
    (reconnect (fun _ => false) 1 ⟨true, 0, 5, 0, 0⟩).delays = [1, 2, 4, 8, 16] := by
  have h := reconnect_backoff_exhaustion (fun _ => false) 1 ⟨true, 0, 5, 0, 0⟩
    (fun n => rfl) rfl
  refine ⟨h.1, h.2.1, ?_⟩
  rw [h.2.2.2.1]
  norm_num [List.range_succ]

/-- C7: for a parsed inbound message, an entry's counter is bumped (by one)
exactly when the lower-cased channel tag equals the lower-cased kind —
the parameters play no role — and the invoked callback handles are exactly
the handler lists of the matching entries, in registry order
(`websocket_tools.py:241-255` and `268-279`). -/
theorem routing_coarseness (st : ManagerState) (data : InData) (now : Nat) :
    (∀ e : SubEntry, message_matches_subscription data e = true ↔
      pyLower (channelTag data.channel) = pyLower e.type) ∧
    (handle_message st (.ok data) now).1.subscriptions =
      st.subscriptions.map (fun p =>
        if message_matches_subscription data p.2 then
          (p.1, { p.2 with messages_received := p.2.messages_received + 1 })
        else p) ∧
    (handle_message st (.ok data) now).2 =
      (st.subscriptions.filter (fun p => message_matches_subscription data p.2)).flatMap
        (fun p => (alistGet p.1 st.message_handlers).getD []) := by
  refine ⟨?_, ?_, ?_⟩
  · intro e
    simp [message_matches_subscription]
  · show (route st.message_handlers data st.subscriptions).1 = _
    rw [route_spec]
  · show (route st.message_handlers data st.subscriptions).2 = _
    rw [route_spec]

/-- C9: a message that parses is enqueued exactly once (whatever the set of
matching entries, possibly none) and bumps the global received counter by
one; an unparseable message changes nothing, is not enqueued, and the
handler returns normally — the embedding of
`websocket_tools.py:231-266` is total, mirroring the catch-and-log of
`json.JSONDecodeError`. -/
theorem handle_message_queue_spec (st : ManagerState) (data : InData) (err : Unit)
    (now : Nat) :
    (handle_message st (.ok data) now).1.message_queue =
      st.message_queue ++ [⟨now, data⟩] ∧
    (handle_message st (.ok data) now).1.stats_messages_received =
      st.stats_messages_received + 1 ∧
    handle_message st (.error err) now = (st, []) := by
  exact ⟨rfl, rfl, rfl⟩

/-- C8: `get_active_subscriptions` returns the state unchanged and one item
per registry entry carrying exactly the identity, kind, parameters,
connected flag, received counter and creation timestamp
(`websocket_tools.py:526-551`). -/
theorem get_active_subscriptions_spec (st : ManagerState) :
    (get_active_subscriptions st).2 = st ∧
    (get_active_subscriptions st).1.length = st.subscriptions.length ∧
    ∀ (i : Nat) (p : String × SubEntry), st.subscriptions[i]? = some p →
      (get_active_subscriptions st).1[i]? =
        some ⟨p.1, p.2.type, p.2.params, st.connected, p.2.messages_received,
          p.2.subscribed_at⟩ := by
  refine ⟨rfl, by simp [get_active_subscriptions], ?_⟩
  intro i p hp
  show (st.subscriptions.map _)[i]? = _
  rw [List.getElem?_map, hp]
  rfl

/-- C8 witness: the snapshot of the trades/BTC manager at index 0. -/
theorem get_active_subscriptions_spec_witness :
    (get_active_subscriptions demoSub).1[0]? =
      some ⟨demoSid, "trades", [("coin", "BTC")], true, 0, 0⟩ := by
  have h := (get_active_subscriptions_spec demoSub).2.2 0 (demoSid, demoEntry) rfl
  rw [h]
  rfl

/-- C10: polling the queue never yields an error: it returns the oldest
enqueued message (the queue head — enqueueing appends at the tail, so this
is FIFO) and leaves the rest, or `none` when the queue is empty (the
timeout case), with the registry and statistics untouched
(`websocket_tools.py:587-604`). -/
theorem get_next_message_spec (st : ManagerState) :
    (get_next_message st).1 = st.message_queue.head? ∧
    (get_next_message st).2.message_queue = st.message_queue.tail ∧
    (get_next_message st).2.subscriptions = st.subscriptions ∧
    (get_next_message st).2.stats_messages_received = st.stats_messages_received := by
  unfold get_next_message
  cases h : st.message_queue with
  | nil => simp [h]
  | cons m rest => simp [h]

end HLWS
